import Mathlib

/-!
Shallow embedding of the HiPAT control daemon (`hipat_control.py`,
`check_offset.py`) and proofs about it.

Modelling conventions:
* Python floats are modelled as rationals (`ℚ`).  All numeric literals the
  program compares against (`377`, `1.0`, `2.0`, `600`, `1000`, `0.05`, …)
  are exactly representable, so the rational model agrees with float
  execution on the inputs considered here.
* `datetime` timestamps are modelled as rational numbers of seconds;
  `timedelta(seconds = n)` subtraction becomes rational subtraction.
* The `shelve` database is modelled as a record.  Before `shelvefile` runs
  the four keys may be absent (`ShelfDB`, `Option` fields); afterwards all
  four are present (`ShelfRec`).
* Python's `round(x, 1)` rounds the binary-float value half to even.  Ties
  at one decimal place lie at odd multiples of `1/20`, which are never
  exactly representable as binary floats, so on float-representable inputs
  half-even and half-up rounding coincide; we use Mathlib's `round`
  (half-up) on `10 * x`.
-/

/-- The persisted shelve record after `shelvefile` has run: every key is
present.  `freq_adj` is the pair (timestamp of last frequency adjustment,
its magnitude); `hipat_start` is the process-start timestamp in seconds. -/
structure ShelfRec where
  average : ℚ
  freq_adj : ℚ × ℚ
  stable_system : Bool
  hipat_start : ℚ
deriving DecidableEq

/-- The shelve database as `shelvefile` finds it on disk: each of the four
keys may be absent. -/
structure ShelfDB where
  average : Option ℚ
  freq_adj : Option (ℚ × ℚ)
  stable_system : Option Bool
  hipat_start : Option ℚ
deriving DecidableEq

/-- Embeds `shelvefile` (hipat_control.py lines 48–62): `average`,
`freq_adj` and `stable_system` are written only when the key is absent
(defaults `0`, `[now, 0]`, `False`); `hipat_start` is overwritten with the
current time on every call. -/
def shelvefile (now : ℚ) (db : ShelfDB) : ShelfRec where
  average :=
    match db.average with
    | none => 0
    | some a => a
  freq_adj :=
    match db.freq_adj with
    | none => (now, 0)
    | some fa => fa
  stable_system :=
    match db.stable_system with
    | none => false
    | some s => s
  hipat_start := now

/-- One parsed `ntpq -pn` row as `check_stable_system` consumes it: the
`reach`, `jitter` and `offset` fields requested from `get_offset`. -/
structure NtpqEntry where
  reach : ℚ
  jitter : ℚ
  offset : ℚ
deriving DecidableEq

/-- The per-server loop body of `check_stable_system` (hipat_control.py
lines 98–110): the first server whose reach is not 377, whose jitter
exceeds 1.0, or whose offset is outside the open interval (-2.0, 2.0)
makes the verdict false; otherwise the remaining servers are checked. -/
def check_servers : List NtpqEntry → Bool
  | [] => true
  | server :: rest =>
    if server.reach ≠ 377 then false
    else if server.jitter > 1.0 then false
    else if ¬ (-2.0 < server.offset ∧ server.offset < 2.0) then false
    else check_servers rest

/-- Embeds `check_stable_system` (hipat_control.py lines 76–120).
`ntpq_info` is the list [CRTC entry, reference-server entry].  The verdict
is persisted into `stable_system` on every exit path and also returned. -/
def check_stable_system (now : ℚ) (ntpq_info : List NtpqEntry) (db : ShelfRec) :
    Bool × ShelfRec :=
  if ¬ check_servers ntpq_info then
    (false, { db with stable_system := false })
  else if now - db.hipat_start < 600 then
    (false, { db with stable_system := false })
  else
    (true, { db with stable_system := true })

/-- The three correction tiers of `make_adjust`: a gross date/time set, a
fine millisecond step, or no adjustment. -/
inductive Tier
  | gross
  | fine
  | noAdjust
deriving DecidableEq

/-- Python's `round(x, 1)`: round `10 * x` to an integer and divide by 10
(half-up here; see the header comment on rounding ties). -/
def round1 (x : ℚ) : ℚ := ((round (10 * x) : ℤ) : ℚ) / 10

/-- Embeds `make_adjust` (hipat_control.py lines 156–179).  Gross when
`-1000 > offset or offset > 1000` (sets date/time, zeroes `average`,
clears `stable_system`); fine when `round(offset,1) >= 1 or
round(offset,1) <= -1` (steps milliseconds, zeroes `average`; the `while`
returns on its first iteration); otherwise no adjustment.  Returns the
updated shelve record and the tier taken. -/
def make_adjust (offset : ℚ) (db : ShelfRec) : ShelfRec × Tier :=
  if -1000 > offset ∨ offset > 1000 then
    ({ db with average := 0, stable_system := false }, Tier.gross)
  else if round1 offset ≥ 1 ∨ round1 offset ≤ -1 then
    ({ db with average := 0 }, Tier.fine)
  else
    (db, Tier.noAdjust)

/-- The configuration entries `main` reads (config.txt values are strings;
`config['freq_adj']` is compared against the string `"1"`). -/
structure Config where
  freq_adj : String
deriving DecidableEq

/-- In hipat_control.py line 208 the condition is
`config['freq_adj'] == "1" and check_stable_system` — the second operand is
the function object `check_stable_system` itself, not a call
`check_stable_system()`.  A Python function object is always truthy, so
this operand evaluates to `True` on every cycle, whatever the persisted
`stable_system` value is. -/
def check_stable_system_operand : Bool := true

/-- The externally visible clock-device actions one control-loop cycle can
dispatch: `make_adjust` covers the gross/fine correction call, `freq_adj`
is `ser.freq_adj(False, offset)`. -/
inductive DevAction
  | adjust (offset : ℚ)
  | freq_adj (offset : ℚ)
deriving DecidableEq

/-- Embeds the body of the `while(True)` loop of `main` (hipat_control.py
lines 201–214) for one cycle, given the trusted offset produced by
`get_quality_offset` and the current shelve record.  Logging, the LED, the
CRTC health check and the log-file truncation touch no shelve key and
dispatch no clock correction, so they are not represented.  Returns the
shelve record after the cycle and the list of clock-device actions
dispatched, in order. -/
def main_cycle (cfg : Config) (offset : ℚ) (db : ShelfRec) :
    ShelfRec × List DevAction :=
  if ¬ (-1 < offset ∧ offset < 1) then
    let adjusted := make_adjust offset db
    if cfg.freq_adj = "1" ∧ check_stable_system_operand then
      (adjusted.1, [DevAction.adjust offset, DevAction.freq_adj offset])
    else
      (adjusted.1, [DevAction.adjust offset])
  else
    (db, [])

/-- Embeds `calculate_average_std` (check_offset.py lines 92–107), carrying
the variance instead of the standard deviation: the source returns
`(average, sqrt variance)` with the population variance over the list.
Since `Real.sqrt` is monotone and injective on nonnegatives, every
comparison the source makes on standard deviations is equivalent to the
same comparison on variances (against squared limits); `std_of_var_le_iff`
below records this. -/
def calculate_average_var (offset_list : List ℚ) : ℚ × ℚ :=
  let average := offset_list.sum / (offset_list.length : ℚ)
  let variance :=
    (offset_list.map (fun x => (x - average) ^ 2)).sum / (offset_list.length : ℚ)
  (average, variance)

/-- Comparisons of the standard deviations the source computes
(`math.sqrt` of the variance) are equivalent to comparisons of the
underlying variances (both nonnegative), which justifies phrasing the
acceptance tests of `get_quality_offset` on variances. -/
theorem std_of_var_le_iff (a b : ℚ) (hb : 0 ≤ b) :
    Real.sqrt (a : ℝ) ≤ Real.sqrt (b : ℝ) ↔ (a : ℝ) ≤ (b : ℝ) := by
  exact Real.sqrt_le_sqrt_iff (by exact_mod_cast hb)

/-- The state threaded through the `while` loop of `get_quality_offset`:
the 10-entry `offset_list` and the current `std_limit`.  The limit is the
source's `std_limit`; the acceptance tests compare variances against its
square (see `calculate_average_var`). -/
structure EstState where
  offset_list : List ℚ
  std_limit : ℚ
deriving DecidableEq

/-- Which acceptance test of `get_quality_offset` fired on one loop
iteration: the improving-and-bounded branch (line 140), the
strongly-bounded branch (line 143), or neither (sleep and retry). -/
inductive Branch
  | improving
  | strong
  | retry
deriving DecidableEq

/-- One iteration of the `while` loop of `get_quality_offset`
(check_offset.py lines 128–148): compute the old statistics, append the
new offset `x`, drop the oldest entry, compute the new statistics, test
the two acceptance branches in order, and increase `std_limit` by 0.05.
Returns the successor state, the branch taken and the new average. -/
def quality_step (st : EstState) (x : ℚ) : EstState × Branch × ℚ :=
  let old := calculate_average_var st.offset_list
  let new_list := (st.offset_list ++ [x]).drop 1
  let new := calculate_average_var new_list
  let branch :=
    if new.2 ≤ old.2 ∧ new.2 ≤ st.std_limit ^ 2 then Branch.improving
    else if new.2 ≤ (st.std_limit / 3) ^ 2 then Branch.strong
    else Branch.retry
  (⟨new_list, st.std_limit + 0.05⟩, branch, new.1)

/-- The `while(confident_result == False)` loop of `get_quality_offset`,
driven by an explicit stream of future samples: each iteration consumes
one sample; an accepting branch returns the new average (and which branch
accepted); `none` means the provided stream was exhausted with the loop
still running (the source would keep sleeping and polling). -/
def quality_loop : EstState → List ℚ → Option (ℚ × Branch)
  | _, [] => none
  | st, x :: rest =>
    match quality_step st x with
    | (st2, Branch.retry, _) => quality_loop st2 rest
    | (_, Branch.improving, avg) => some (avg, Branch.improving)
    | (_, Branch.strong, avg) => some (avg, Branch.strong)

/-- Embeds `get_quality_offset` (check_offset.py lines 109–150) over an
explicit sample stream: the first 10 samples form the initial
`offset_list`, `std_limit` starts at 1.0, and the loop then consumes the
remaining samples. -/
def get_quality_offset (samples : List ℚ) : Option (ℚ × Branch) :=
  if samples.length < 10 then none
  else quality_loop ⟨samples.take 10, 1⟩ (samples.drop 10)

/-- Iterates the loop body of `get_quality_offset` over a list of samples
unconditionally.  The body's effect on the state (window update and
`std_limit += 0.05`) is the same whether or not an acceptance branch
fires, so this computes the state after `xs.length` loop iterations. -/
def body_iter (st : EstState) : List ℚ → EstState
  | [] => st
  | x :: rest => body_iter (quality_step st x).1 rest

/-- Value of a list of decimal digit characters, most significant first;
`none` if any character is not a digit.  The empty list has value 0 (it is
rejected separately by `parseFloat` when both parts are empty). -/
def digitsVal (cs : List Char) : Option ℕ :=
  cs.foldl
    (fun acc c =>
      acc.bind fun n => if c.isDigit then some (10 * n + (c.toNat - 48)) else none)
    (some 0)

/-- Models Python's `float()` on the decimal numerals that appear in
`ntpq -pn` output: an optional sign, an integer part, and an optional
fractional part after one dot.  (Python's `float` also accepts exponent
and infinity forms that `ntpq` never emits; those are outside this model.)
`none` models the `ValueError` raised on any other string. -/
def parseFloat (s : String) : Option ℚ :=
  let cs := s.toList
  let signed : ℚ × List Char :=
    match cs with
    | '-' :: rest => (-1, rest)
    | '+' :: rest => (1, rest)
    | _ => (1, cs)
  let ip := signed.2.takeWhile (fun c => c ≠ '.')
  let rest := signed.2.dropWhile (fun c => c ≠ '.')
  let fp : Option (List Char) :=
    match rest with
    | [] => some []
    | _ :: r => if r.contains '.' then none else some r
  match fp with
  | none => none
  | some f =>
    if ip.isEmpty ∧ f.isEmpty then none
    else
      match digitsVal ip, digitsVal f with
      | some i, some fv =>
        some (signed.1 * ((i : ℚ) + (fv : ℚ) / (10 : ℚ) ^ f.length))
      | _, _ => none

/-- The last character of the `when` token, modelling Python's
`when_output[-1]`. -/
def lastChar (s : String) : Option Char := s.toList.getLast?

/-- The string without its last character, modelling `when_output[:-1]`. -/
def dropLast1 (s : String) : String := String.mk s.toList.dropLast

/-- Embeds the `when`-field normalization of `get_offset`
(check_offset.py lines 71–81): a bare dash yields 0; a trailing `m`, `h`
or `d` multiplies the preceding numeral by 60, 3600 or 86400; otherwise
the token itself is converted by `float()`.  `none` models the exception
Python would raise (ValueError from `float`, or IndexError on the empty
string). -/
def normalize_when (w : String) : Option ℚ :=
  if w = "-" then some 0
  else if lastChar w = some 'm' then (parseFloat (dropLast1 w)).map (· * 60)
  else if lastChar w = some 'h' then (parseFloat (dropLast1 w)).map (· * 3600)
  else if lastChar w = some 'd' then (parseFloat (dropLast1 w)).map (· * 86400)
  else parseFloat w

/-- One row of `ntpq -pn` output as the regular expression of `get_offset`
(check_offset.py lines 54–64) captures it: ten whitespace-separated text
tokens.  `whenF` is the source's `when` group. -/
structure NtpqRow where
  ref_server : String
  refid : String
  st : String
  t : String
  whenF : String
  poll : String
  reach : String
  delay : String
  offset : String
  jitter : String
deriving DecidableEq

/-- The exceptions the embedded `get_offset` can raise.
`attribute_error` is Python's AttributeError: `re.search` returned `None`
and the code called `.group` on it.  `sample_not_found` is the dedicated
error class the specification posits for a missing row; nothing in the
source defines or raises it. -/
inductive PyError
  | attribute_error
  | sample_not_found
deriving DecidableEq

/-- `re.search` over the `ntpq -pn` output, at row granularity: the first
row whose first column matches the requested `ref_server` identity. -/
def find_row (rows : List NtpqRow) (ref_server : String) : Option NtpqRow :=
  rows.find? (fun r => r.ref_server = ref_server)

/-- Embeds `get_offset` (check_offset.py lines 42–89) called with its
default arguments (`offset = True` and no extra keyword arguments), the
form every caller in the repository uses.  With one requested field the
source returns the bare value: the parsed float, or (via the
`except ValueError` branch) the raw string when the field is not numeric.
When no row matches, `output` is `None` and `output.group('offset')`
raises AttributeError. -/
def get_offset (rows : List NtpqRow) (ref_server : String) :
    Except PyError (ℚ ⊕ String) :=
  match find_row rows ref_server with
  | none => Except.error PyError.attribute_error
  | some r =>
    match parseFloat r.offset with
    | some q => Except.ok (Sum.inl q)
    | none => Except.ok (Sum.inr r.offset)

/-! ## Helper lemmas -/

/-- Unfolding lemma for one server in the `check_stable_system` loop: the
checks pass for the head entry exactly when its reach is 377, its jitter
is at most 1 and its offset lies strictly between -2 and 2. -/
theorem check_servers_cons (s : NtpqEntry) (rest : List NtpqEntry) :
    check_servers (s :: rest) = true ↔
      (s.reach = 377 ∧ s.jitter ≤ 1 ∧ -2 < s.offset ∧ s.offset < 2 ∧
        check_servers rest = true) := by
  simp only [check_servers]
  split_ifs with h1 h2 h3
  · simp only [false_iff]
    exact fun h => h1 h.1
  · simp only [false_iff]
    intro h
    norm_num at h2
    linarith [h.2.1]
  · norm_num at h1 h2 h3
    exact ⟨fun hr => ⟨h1, h2, h3.1, h3.2, hr⟩, fun h => h.2.2.2.2⟩
  · simp only [false_iff]
    intro h
    norm_num at h3
    linarith [h3 h.2.2.1, h.2.2.2.1]

/-- Each loop body execution adds 0.05 to `std_limit`. -/
theorem quality_step_std_limit (st : EstState) (x : ℚ) :
    (quality_step st x).1.std_limit = st.std_limit + 0.05 := rfl

/-- After iterating the loop body over `xs`, `std_limit` has grown by
0.05 per iteration. -/
theorem body_iter_std_limit_aux (xs : List ℚ) (st : EstState) :
    (body_iter st xs).std_limit = st.std_limit + (xs.length : ℚ) * 0.05 := by
  induction xs generalizing st with
  | nil => simp [body_iter]
  | cons x rest ih =>
    rw [body_iter, ih, quality_step_std_limit, List.length_cons]
    push_cast
    ring

/-- A window of ten equal samples has average that sample and population
variance 0. -/
theorem calculate_average_var_replicate10 (v : ℚ) :
    calculate_average_var (List.replicate 10 v) = (v, 0) := by
  simp [calculate_average_var, List.replicate, Prod.ext_iff]
  constructor <;> ring

/-! ## Claim theorems -/

/-- Claim C1 (code bug): the source's frequency-trim gate
(hipat_control.py line 208) tests the function object
`check_stable_system` instead of calling it, so with the feature flag
`"1"` the trim action is dispatched even while the persisted
`stable_system` is `False` — here at offset 5 with `stable_system = false`
the cycle still emits `freq_adj`, contradicting the claim (and the
intent documented in `check_stable_system`'s own docstring). -/
theorem main_cycle_trims_when_unstable :
    (⟨0, (0, 0), false, 0⟩ : ShelfRec).stable_system = false ∧
    DevAction.freq_adj 5 ∈ (main_cycle ⟨"1"⟩ 5 ⟨0, (0, 0), false, 0⟩).2 := by
  refine ⟨rfl, ?_⟩
  norm_num [main_cycle, check_stable_system_operand]

/-- Claim C2: `check_stable_system` returns, and persists as
`stable_system`, `true` exactly when both sources have reach 377, jitter
at most 1.0 ms, offset strictly inside (-2, 2) ms, and the process uptime
is at least 600 seconds; in particular reach 376 with perfect offset and
jitter gives `false`, uptime 599 gives `false`, and uptime 600 with
perfect sources gives `true`. -/
theorem check_stable_system_spec (now : ℚ) (crtc ref_s : NtpqEntry) (db : ShelfRec) :
    ((check_stable_system now [crtc, ref_s] db).1 = true ↔
      (crtc.reach = 377 ∧ ref_s.reach = 377 ∧
       crtc.jitter ≤ 1 ∧ ref_s.jitter ≤ 1 ∧
       -2 < crtc.offset ∧ crtc.offset < 2 ∧ -2 < ref_s.offset ∧ ref_s.offset < 2 ∧
       600 ≤ now - db.hipat_start)) ∧
    ((check_stable_system now [crtc, ref_s] db).2.stable_system =
      (check_stable_system now [crtc, ref_s] db).1) ∧
    (check_stable_system (db.hipat_start + 1000) [⟨376, 0, 0⟩, ⟨377, 0, 0⟩] db).1 = false ∧
    (check_stable_system (db.hipat_start + 599) [⟨377, 0, 0⟩, ⟨377, 0, 0⟩] db).1 = false ∧
    (check_stable_system (db.hipat_start + 600) [⟨377, 0, 0⟩, ⟨377, 0, 0⟩] db).1 = true := by
  have hcs : check_servers [crtc, ref_s] = true ↔
      (crtc.reach = 377 ∧ crtc.jitter ≤ 1 ∧ -2 < crtc.offset ∧ crtc.offset < 2 ∧
       ref_s.reach = 377 ∧ ref_s.jitter ≤ 1 ∧ -2 < ref_s.offset ∧ ref_s.offset < 2) := by
    rw [check_servers_cons, check_servers_cons]
    simp [check_servers]
  refine ⟨?_, ?_, ?_, ?_, ?_⟩
  · by_cases h : check_servers [crtc, ref_s] = true
    · by_cases ht : now - db.hipat_start < 600
      · simp only [check_stable_system, h, not_true_eq_false, if_false, if_pos ht]
        simp only [Bool.false_eq_true, false_iff]
        intro hc
        linarith [hc.2.2.2.2.2.2.2.2]
      · simp only [check_stable_system, h, not_true_eq_false, if_false, if_neg ht]
        simp only [true_iff]
        rw [hcs] at h
        push_neg at ht
        tauto
    · simp only [check_stable_system, h]
      simp only [Bool.not_eq_true] at h
      simp only [h, Bool.false_eq_true, not_false_eq_true, if_true, Bool.false_eq_true,
        false_iff]
      intro hc
      exact absurd (hcs.mpr (by tauto)) (by simp [h])
  · unfold check_stable_system
    split_ifs <;> rfl
  · norm_num [check_stable_system, check_servers]
  · have ht : db.hipat_start + 599 - db.hipat_start < 600 := by ring_nf; norm_num
    norm_num [check_stable_system, check_servers, ht]
  · have ht : ¬ (db.hipat_start + 600 - db.hipat_start < 600) := by ring_nf; norm_num
    norm_num [check_stable_system, check_servers, ht]

/-- Claim C3: `make_adjust` takes the gross tier exactly when
`-1000 > offset or offset > 1000` and the fine tier exactly when that
fails and `round(offset,1) >= 1 or round(offset,1) <= -1`; concretely
1000.04 is gross, 999.96 is fine, and the boundary 1000 itself is fine,
not gross. -/
theorem make_adjust_tiers (o : ℚ) (db : ShelfRec) :
    ((make_adjust o db).2 = Tier.gross ↔ (-1000 > o ∨ o > 1000)) ∧
    ((make_adjust o db).2 = Tier.fine ↔
      (¬ (-1000 > o ∨ o > 1000) ∧ (round1 o ≥ 1 ∨ round1 o ≤ -1))) ∧
    (make_adjust (1000.04 : ℚ) db).2 = Tier.gross ∧
    (make_adjust (999.96 : ℚ) db).2 = Tier.fine ∧
    (make_adjust (1000 : ℚ) db).2 = Tier.fine := by
  refine ⟨?_, ?_, ?_, ?_, ?_⟩
  · unfold make_adjust
    split_ifs with h1 h2 <;> simp_all
  · unfold make_adjust
    split_ifs with h1 h2 <;> simp_all
  · norm_num [make_adjust]
  · norm_num [make_adjust, round1, round_eq]
  · norm_num [make_adjust, round1, round_eq]

/-- Claim C4: a fine correction zeroes the persisted `average` and leaves
`stable_system`, `freq_adj` and `hipat_start` unchanged; a gross
correction zeroes `average`, clears `stable_system` and leaves `freq_adj`
and `hipat_start` unchanged. -/
theorem make_adjust_effects (o : ℚ) (db : ShelfRec) :
    ((make_adjust o db).2 = Tier.fine →
      (make_adjust o db).1.average = 0 ∧
      (make_adjust o db).1.stable_system = db.stable_system ∧
      (make_adjust o db).1.freq_adj = db.freq_adj ∧
      (make_adjust o db).1.hipat_start = db.hipat_start) ∧
    ((make_adjust o db).2 = Tier.gross →
      (make_adjust o db).1.average = 0 ∧
      (make_adjust o db).1.stable_system = false ∧
      (make_adjust o db).1.freq_adj = db.freq_adj ∧
      (make_adjust o db).1.hipat_start = db.hipat_start) := by
  unfold make_adjust
  split_ifs <;> simp_all

/-- Witness for C4: at offset 5 (a fine correction) on a concrete record,
the average is zeroed while the stability flag and frequency-adjustment
record survive. -/
theorem make_adjust_effects_witness :
    (make_adjust 5 ⟨1, (2, 3), true, 4⟩).2 = Tier.fine ∧
    (make_adjust 5 ⟨1, (2, 3), true, 4⟩).1.average = 0 ∧
    (make_adjust 5 ⟨1, (2, 3), true, 4⟩).1.stable_system = true ∧
    (make_adjust 5 ⟨1, (2, 3), true, 4⟩).1.freq_adj = (2, 3) := by
  have hfine : (make_adjust (5 : ℚ) ⟨1, (2, 3), true, 4⟩).2 = Tier.fine := by
    norm_num [make_adjust, round1, round_eq]
  have h := (make_adjust_effects 5 ⟨1, (2, 3), true, 4⟩).1 hfine
  exact ⟨hfine, h.1, h.2.1, h.2.2.1⟩

/-- Claim C5 counterexample: on the concrete run with ten samples of 10
followed by one more 10, the estimator does accept immediately with
average 10, but the branch that fires is the improving-and-bounded test
(new std ≤ old std and ≤ limit, checked first), not the strongly-bounded
`new_std <= std_limit/3` branch the claim names. -/
theorem constant_window_counterexample :
    get_quality_offset (List.replicate 11 10) = some (10, Branch.improving) ∧
    Branch.improving ≠ Branch.strong := by
  refine ⟨?_, by decide⟩
  norm_num [get_quality_offset, quality_loop, quality_step, calculate_average_var,
    List.replicate]

/-- Claim C5 as amended: for any initial 10-sample window with population
standard deviation 0 (ten equal samples) followed by one more equal
sample, the average is that value, the deviation stays 0, and
`get_quality_offset` accepts on the first post-window evaluation — via
the improving-and-bounded branch, which is tested first and already
succeeds with `new_std = old_std = 0 ≤ std_limit`. -/
theorem constant_window_accepts (v : ℚ) :
    calculate_average_var (List.replicate 10 v) = (v, 0) ∧
    get_quality_offset (List.replicate 11 v) = some (v, Branch.improving) := by
  have hav := calculate_average_var_replicate10 v
  refine ⟨hav, ?_⟩
  have hlist : (List.replicate 10 v ++ [v]).drop 1 = List.replicate 10 v := by
    rw [← List.replicate_succ']
    simp [List.replicate_succ]
  have hstep : quality_step ⟨List.replicate 10 v, 1⟩ v =
      (⟨List.replicate 10 v, 1 + 0.05⟩, Branch.improving, v) := by
    unfold quality_step
    simp only [hlist, hav]
    norm_num
  unfold get_quality_offset
  rw [if_neg (by simp)]
  have htake : (List.replicate 11 v).take 10 = List.replicate 10 v := by
    simp [List.take_replicate]
  have hdrop : (List.replicate 11 v).drop 10 = [v] := by
    simp [List.drop_replicate]
  rw [htake, hdrop]
  unfold quality_loop
  rw [hstep]

/-- Claim C6: starting from 1.0, `std_limit` after `n` further loop-body
iterations equals `1 + 0.05 * n`, whatever the samples were, and it is
monotonically non-decreasing in the number of iterations. -/
theorem std_limit_evolution (w : List ℚ) (xs : List ℚ) :
    (body_iter ⟨w, 1⟩ xs).std_limit = 1 + (xs.length : ℚ) * 0.05 ∧
    (∀ ys : List ℚ, xs.length ≤ ys.length →
      (body_iter ⟨w, 1⟩ xs).std_limit ≤ (body_iter ⟨w, 1⟩ ys).std_limit) := by
  constructor
  · exact body_iter_std_limit_aux xs ⟨w, 1⟩
  · intro ys hlen
    rw [body_iter_std_limit_aux, body_iter_std_limit_aux]
    have h : (xs.length : ℚ) ≤ (ys.length : ℚ) := by exact_mod_cast hlen
    linarith

/-- Witness for C6: one iteration's limit is at most two iterations'
limit on a concrete window and sample stream. -/
theorem std_limit_evolution_witness :
    (body_iter ⟨List.replicate 10 0, 1⟩ [3]).std_limit ≤
    (body_iter ⟨List.replicate 10 0, 1⟩ [3, 4]).std_limit :=
  (std_limit_evolution (List.replicate 10 0) [3]).2 [3, 4] (by norm_num)

/-- Claim C7 counterexample: with probe output holding only a row for
`1.2.3.4`, asking for `10.0.0.1` makes `get_offset` fail with
AttributeError (from calling `.group` on the `None` returned by
`re.search`), which is not the dedicated `SampleNotFound` error the claim
says callers can distinguish — the source never defines or raises one. -/
theorem get_offset_no_match_counterexample :
    get_offset [⟨"1.2.3.4", "r", "2", "u", "5", "64", "377", "0.1", "0.2", "0.3"⟩]
        "10.0.0.1" = Except.error PyError.attribute_error ∧
    PyError.attribute_error ≠ PyError.sample_not_found := by
  exact ⟨by rfl, by decide⟩

/-- Claim C7 as amended: whenever no row of the probe output matches the
requested reference-server identity, `get_offset` does not succeed — it
fails, but with a plain AttributeError rather than a dedicated
`SampleNotFound` error. -/
theorem get_offset_no_match (rows : List NtpqRow) (srv : String)
    (h : find_row rows srv = none) :
    get_offset rows srv = Except.error PyError.attribute_error := by
  unfold get_offset
  rw [h]

/-- Witness for C7: on empty probe output every lookup fails with
AttributeError. -/
theorem get_offset_no_match_witness :
    get_offset [] "10.0.0.1" = Except.error PyError.attribute_error :=
  get_offset_no_match [] "10.0.0.1" rfl

/-- Claim C8: `shelvefile` rewrites `hipat_start` to the current time on
every process start, while `average`, `freq_adj` and `stable_system` are
created with defaults 0, `(now, 0)` and `false` only when absent and
otherwise keep their previous values. -/
theorem shelvefile_spec (now : ℚ) (db : ShelfDB) :
    (shelvefile now db).hipat_start = now ∧
    (db.average = none → (shelvefile now db).average = 0) ∧
    (∀ a, db.average = some a → (shelvefile now db).average = a) ∧
    (db.freq_adj = none → (shelvefile now db).freq_adj = (now, 0)) ∧
    (∀ fa, db.freq_adj = some fa → (shelvefile now db).freq_adj = fa) ∧
    (db.stable_system = none → (shelvefile now db).stable_system = false) ∧
    (∀ s, db.stable_system = some s → (shelvefile now db).stable_system = s) := by
  refine ⟨rfl, ?_, ?_, ?_, ?_, ?_, ?_⟩ <;>
    · intros
      simp_all [shelvefile]

/-- Witness for C8: restarting at time 7 over a store holding
`average = 3`, no `freq_adj`, `stable_system = true` and an old start
time 1 keeps the average and the flag, defaults the missing `freq_adj`
and rewrites the start time. -/
theorem shelvefile_spec_witness :
    (shelvefile 7 ⟨some 3, none, some true, some 1⟩).hipat_start = 7 ∧
    (shelvefile 7 ⟨some 3, none, some true, some 1⟩).average = 3 ∧
    (shelvefile 7 ⟨some 3, none, some true, some 1⟩).freq_adj = (7, 0) ∧
    (shelvefile 7 ⟨some 3, none, some true, some 1⟩).stable_system = true := by
  have h := shelvefile_spec 7 ⟨some 3, none, some true, some 1⟩
  exact ⟨h.1, h.2.2.1 3 rfl, h.2.2.2.1 rfl, h.2.2.2.2.2.2 true rfl⟩

/-- Claim C9: the `when` normalization of `get_offset` maps a bare dash
to 0, a numeral with trailing `m`, `h` or `d` to 60, 3600 or 86400 times
the numeral, and a plain numeral to itself; concretely `"16m"` gives 960,
`"2h"` gives 7200 and `"-"` gives 0. -/
theorem normalize_when_spec :
    normalize_when "-" = some 0 ∧
    normalize_when "16m" = some 960 ∧
    normalize_when "2h" = some 7200 ∧
    (∀ s q, s ≠ "-" → lastChar s = some 'm' → parseFloat (dropLast1 s) = some q →
      normalize_when s = some (q * 60)) ∧
    (∀ s q, s ≠ "-" → lastChar s = some 'h' → parseFloat (dropLast1 s) = some q →
      normalize_when s = some (q * 3600)) ∧
    (∀ s q, s ≠ "-" → lastChar s = some 'd' → parseFloat (dropLast1 s) = some q →
      normalize_when s = some (q * 86400)) ∧
    (∀ s q, s ≠ "-" → lastChar s ≠ some 'm' → lastChar s ≠ some 'h' →
      lastChar s ≠ some 'd' → parseFloat s = some q → normalize_when s = some q) := by
  refine ⟨?_, ?_, ?_, ?_, ?_, ?_, ?_⟩
  · simp +decide [normalize_when]
  · simp +decide [normalize_when, lastChar, dropLast1, parseFloat, digitsVal]
    norm_num
  · simp +decide [normalize_when, lastChar, dropLast1, parseFloat, digitsVal]
    norm_num
  · intro s q hs hm hp
    simp [normalize_when, hs, hm, hp]
  · intro s q hs hh hp
    have hm : lastChar s ≠ some 'm' := by rw [hh]; simp
    simp [normalize_when, hs, hh, hm, hp]
  · intro s q hs hd hp
    have hm : lastChar s ≠ some 'm' := by rw [hd]; simp
    have hh : lastChar s ≠ some 'h' := by rw [hd]; simp
    simp [normalize_when, hs, hd, hm, hh, hp]
  · intro s q hs hm hh hd hp
    simp [normalize_when, hs, hm, hh, hd, hp]

/-- Witness for C9: the day rule at `"3d"` gives 259200 seconds. -/
theorem normalize_when_spec_witness :
    normalize_when "3d" = some 259200 := by
  have hp : parseFloat (dropLast1 "3d") = some 3 := by
    simp +decide [parseFloat, dropLast1, digitsVal]
  have h := normalize_when_spec.2.2.2.2.2.1 "3d" 3 (by decide) (by decide) hp
  norm_num at h
  exact h

/-- Claim C10: for any trusted offset strictly between -1 and 1 the
control-loop cycle dispatches no action and leaves the shelve record
unchanged; in particular 0.96, although `round(0.96,1) = 1.0` satisfies
`make_adjust`'s fine-tier test, never reaches `make_adjust` because the
outer gate compares the exact offset. -/
theorem main_cycle_in_range (cfg : Config) (db : ShelfRec) (o : ℚ)
    (h1 : -1 < o) (h2 : o < 1) :
    main_cycle cfg o db = (db, []) ∧
    round1 (0.96 : ℚ) = 1 ∧
    (make_adjust (0.96 : ℚ) db).2 = Tier.fine ∧
    main_cycle cfg (0.96 : ℚ) db = (db, []) := by
  refine ⟨?_, ?_, ?_, ?_⟩
  · simp [main_cycle, h1, h2]
  · norm_num [round1, round_eq]
  · norm_num [make_adjust, round1, round_eq]
  · norm_num [main_cycle]

/-- Witness for C10: offset 0 leaves a concrete record untouched and
dispatches nothing. -/
theorem main_cycle_in_range_witness :
    main_cycle ⟨"1"⟩ 0 ⟨0, (0, 0), false, 0⟩ = (⟨0, (0, 0), false, 0⟩, []) :=
  (main_cycle_in_range ⟨"1"⟩ ⟨0, (0, 0), false, 0⟩ 0 (by norm_num) (by norm_num)).1
